import Mathlib

/-!
Verification development for `tools/build_my_configs.py` (iron-skillet).

The script renders Jinja2 configuration templates with user-defined values
and writes the results into a timestamped `my_configs` archive directory.
This file gives a shallow embedding of the script's components:

* the credential-hashing Jinja filters `md5_hash`, `des_hash`, `sha512_hash`
  (source lines 130-157, delegating to passlib's crypt routines, whose salted
  crypt format is modelled here with the random salt made an explicit input);
* the template renderer `template_render` (lines 76-98), modelled over a
  minimal substitution language with the three registered filters (lines 91-93);
* the archive writer `myconfig_newdir` (lines 46-73) and `template_save`
  (lines 101-126) over an explicit filesystem state;
* the per-mode orchestration `replace_variables` (lines 160-217), including
  the `__import__`-based load-order lookup and mode dispatch (lines 174-183);
* the interactive password-confirmation loop of `__main__` (lines 237-247).

Randomness (passlib's salt generation) and console/keyboard I/O are made
explicit parameters; the filesystem is an explicit state value threaded
through the functions that touch it.
-/

namespace IronSkillet

/-! ### Credential hasher

`md5_hash`, `des_hash` and `sha512_hash` in the source delegate to passlib's
`md5_crypt.hash`, `des_crypt.hash` and `sha512_crypt.hash`.  Each picks a
fresh random salt of a fixed length (8, 2 and 16 characters respectively) and
returns a self-describing crypt string: format tag, then salt, then digest.
The salt is modelled as an explicit argument; the digest is a concrete
deterministic mixing function (the cryptographic details of the digest are
irrelevant to the claims, which concern format, salting and verification). -/

/-- Deterministic digest core: fold the salt and plaintext characters into a
number.  Stands in for the crypt digest computation. -/
def digestNat (salt txt : String) : Nat :=
  (salt ++ txt).data.foldl (fun acc c => (acc * 131 + c.toNat) % 1000003) 5381

/-- Digest rendered as a string (hex digits), as the final component of the
crypt output. -/
def digest (salt txt : String) : String :=
  String.mk (Nat.toDigits 16 (digestNat salt txt))

/-- `md5_hash(txt)` (source line 137): `md5_crypt.hash(txt)`, producing
`$1$<salt>$<digest>` with a fresh 8-character salt.  The salt is explicit. -/
def md5_hash (salt txt : String) : String :=
  "$1$" ++ salt ++ "$" ++ digest salt txt

/-- `des_hash(txt)` (source line 147): `des_crypt.hash(txt)`, producing
`<salt><digest>` with a fresh 2-character salt.  The salt is explicit. -/
def des_hash (salt txt : String) : String :=
  salt ++ digest salt txt

/-- `sha512_hash(txt)` (source line 157): `sha512_crypt.hash(txt)`, producing
`$6$<salt>$<digest>` with a fresh 16-character salt.  The salt is explicit. -/
def sha512_hash (salt txt : String) : String :=
  "$6$" ++ salt ++ "$" ++ digest salt txt

/-- passlib `md5_crypt.verify`: read the salt out of the self-describing hash
string (8 characters after the `$1$` tag) and recompute. -/
def md5_verify (h txt : String) : Bool :=
  let salt := String.mk ((h.data.drop 3).take 8)
  h == md5_hash salt txt

/-- passlib `des_crypt.verify`: the salt is the first 2 characters. -/
def des_verify (h txt : String) : Bool :=
  let salt := String.mk (h.data.take 2)
  h == des_hash salt txt

/-- passlib `sha512_crypt.verify`: 16 salt characters after the `$6$` tag. -/
def sha512_verify (h txt : String) : Bool :=
  let salt := String.mk ((h.data.drop 3).take 16)
  h == sha512_hash salt txt

lemma md5_hash_data (salt txt : String) :
    (md5_hash salt txt).data =
      '$' :: '1' :: '$' :: (salt.data ++ '$' :: (digest salt txt).data) := by
  simp [md5_hash, String.data_append]

lemma des_hash_data (salt txt : String) :
    (des_hash salt txt).data = salt.data ++ (digest salt txt).data := by
  simp [des_hash, String.data_append]

lemma sha512_hash_data (salt txt : String) :
    (sha512_hash salt txt).data =
      '$' :: '6' :: '$' :: (salt.data ++ '$' :: (digest salt txt).data) := by
  simp [sha512_hash, String.data_append]

lemma string_ext {s t : String} (h : s.data = t.data) : s = t := by
  cases s; cases t; exact congrArg String.mk h

lemma md5_verify_hash (salt txt : String) (hlen : salt.length = 8) :
    md5_verify (md5_hash salt txt) txt = true := by
  have hx : ((md5_hash salt txt).data.drop 3).take 8 = salt.data := by
    rw [md5_hash_data]
    show ((['$', '1', '$'] ++ (salt.data ++ '$' :: (digest salt txt).data)).drop 3).take 8
        = salt.data
    rw [List.drop_left' (by rfl), List.take_left' hlen]
  simp only [md5_verify, hx]
  have : String.mk salt.data = salt := string_ext rfl
  rw [this]
  simp

lemma des_verify_hash (salt txt : String) (hlen : salt.length = 2) :
    des_verify (des_hash salt txt) txt = true := by
  have hx : (des_hash salt txt).data.take 2 = salt.data := by
    rw [des_hash_data, List.take_left' hlen]
  simp only [des_verify, hx]
  have : String.mk salt.data = salt := string_ext rfl
  rw [this]
  simp

lemma sha512_verify_hash (salt txt : String) (hlen : salt.length = 16) :
    sha512_verify (sha512_hash salt txt) txt = true := by
  have hx : ((sha512_hash salt txt).data.drop 3).take 16 = salt.data := by
    rw [sha512_hash_data]
    show ((['$', '6', '$'] ++ (salt.data ++ '$' :: (digest salt txt).data)).drop 3).take 16
        = salt.data
    rw [List.drop_left' (by rfl), List.take_left' hlen]
  simp only [sha512_verify, hx]
  have : String.mk salt.data = salt := string_ext rfl
  rw [this]
  simp

lemma salt_prefix_ne {s₁ s₂ : String} (r₁ r₂ : List Char)
    (hl : s₁.length = s₂.length) (hne : s₁ ≠ s₂) :
    s₁.data ++ r₁ ≠ s₂.data ++ r₂ := by
  intro h
  exact hne (string_ext (List.append_inj h hl).1)

lemma md5_hash_ne (txt : String) {s₁ s₂ : String}
    (hl : s₁.length = s₂.length) (hne : s₁ ≠ s₂) :
    md5_hash s₁ txt ≠ md5_hash s₂ txt := by
  intro h
  have hd := congrArg String.data h
  rw [md5_hash_data, md5_hash_data] at hd
  simp only [List.cons.injEq, true_and] at hd
  exact salt_prefix_ne _ _ hl hne hd

lemma des_hash_ne (txt : String) {s₁ s₂ : String}
    (hl : s₁.length = s₂.length) (hne : s₁ ≠ s₂) :
    des_hash s₁ txt ≠ des_hash s₂ txt := by
  intro h
  have hd := congrArg String.data h
  rw [des_hash_data, des_hash_data] at hd
  exact salt_prefix_ne _ _ hl hne hd

lemma sha512_hash_ne (txt : String) {s₁ s₂ : String}
    (hl : s₁.length = s₂.length) (hne : s₁ ≠ s₂) :
    sha512_hash s₁ txt ≠ sha512_hash s₂ txt := by
  intro h
  have hd := congrArg String.data h
  rw [sha512_hash_data, sha512_hash_data] at hd
  simp only [List.cons.injEq, true_and] at hd
  exact salt_prefix_ne _ _ hl hne hd

/-- C1: for every plaintext, each of `md5_hash`, `des_hash`, `sha512_hash`
returns a salted, self-describing hash string that verifies against the
original plaintext under that variant's own verification, and two calls of
the same variant on the same plaintext with distinct (random) salts of the
variant's salt length produce different strings that each still verify. -/
theorem hash_variants_verify_and_salts_differ
    (txt m₁ m₂ d₁ d₂ s₁ s₂ : String)
    (hm₁ : m₁.length = 8) (hm₂ : m₂.length = 8) (hmne : m₁ ≠ m₂)
    (hd₁ : d₁.length = 2) (hd₂ : d₂.length = 2) (hdne : d₁ ≠ d₂)
    (hs₁ : s₁.length = 16) (hs₂ : s₂.length = 16) (hsne : s₁ ≠ s₂) :
    (md5_verify (md5_hash m₁ txt) txt = true ∧
     md5_verify (md5_hash m₂ txt) txt = true ∧
     md5_hash m₁ txt ≠ md5_hash m₂ txt) ∧
    (des_verify (des_hash d₁ txt) txt = true ∧
     des_verify (des_hash d₂ txt) txt = true ∧
     des_hash d₁ txt ≠ des_hash d₂ txt) ∧
    (sha512_verify (sha512_hash s₁ txt) txt = true ∧
     sha512_verify (sha512_hash s₂ txt) txt = true ∧
     sha512_hash s₁ txt ≠ sha512_hash s₂ txt) :=
  ⟨⟨md5_verify_hash m₁ txt hm₁, md5_verify_hash m₂ txt hm₂,
    md5_hash_ne txt (hm₁.trans hm₂.symm) hmne⟩,
   ⟨des_verify_hash d₁ txt hd₁, des_verify_hash d₂ txt hd₂,
    des_hash_ne txt (hd₁.trans hd₂.symm) hdne⟩,
   ⟨sha512_verify_hash s₁ txt hs₁, sha512_verify_hash s₂ txt hs₂,
    sha512_hash_ne txt (hs₁.trans hs₂.symm) hsne⟩⟩

/-- Witness for C1 at the concrete plaintext `"secret"` with concrete
distinct salts of the right lengths. -/
theorem hash_variants_verify_and_salts_differ_witness :
    (md5_verify (md5_hash "abcdefgh" "secret") "secret" = true ∧
     md5_verify (md5_hash "hgfedcba" "secret") "secret" = true ∧
     md5_hash "abcdefgh" "secret" ≠ md5_hash "hgfedcba" "secret") ∧
    (des_verify (des_hash "ab" "secret") "secret" = true ∧
     des_verify (des_hash "cd" "secret") "secret" = true ∧
     des_hash "ab" "secret" ≠ des_hash "cd" "secret") ∧
    (sha512_verify (sha512_hash "abcdefghabcdefgh" "secret") "secret" = true ∧
     sha512_verify (sha512_hash "ponmlkjiponmlkji" "secret") "secret" = true ∧
     sha512_hash "abcdefghabcdefgh" "secret" ≠ sha512_hash "ponmlkjiponmlkji" "secret") :=
  hash_variants_verify_and_salts_differ "secret" "abcdefgh" "hgfedcba" "ab" "cd"
    "abcdefghabcdefgh" "ponmlkjiponmlkji"
    (by decide) (by decide) (by decide) (by decide) (by decide) (by decide)
    (by decide) (by decide) (by decide)

/-! ### Template renderer

`template_render` (source lines 76-98) builds a Jinja2 environment over
`{template_path}/{render_type}`, registers the three hash filters
(lines 91-93, the `defined_filters` of line 43), loads the named template and
renders it with `xmlvar`.  Jinja2 is modelled by a minimal substitution
language: a template is a list of nodes, each a literal, a variable
reference `{{ KEY }}`, or a filtered reference `{{ KEY | hash_filter }}`.
Salt randomness consumed by the hash filters is an explicit stream indexed
by node position. -/

/-- The three custom Jinja filters registered on the environment
(`defined_filters`, source line 43). -/
inductive JinjaFilter
  | md5F
  | desF
  | sha512F
deriving DecidableEq

/-- Apply a registered hash filter to a value, with the salt the filter's
crypt routine would draw. -/
def applyFilter (f : JinjaFilter) (salt v : String) : String :=
  match f with
  | .md5F => md5_hash salt v
  | .desF => des_hash salt v
  | .sha512F => sha512_hash salt v

/-- One node of a parsed template. -/
inductive Node
  | lit (s : String)
  | var (k : String)
  | filt (k : String) (f : JinjaFilter)
deriving DecidableEq

/-- Whether a node's output comes from a hash filter (salt-randomized). -/
def Node.isHashed : Node → Bool
  | .filt _ _ => true
  | _ => false

/-- The Variable Set (`xmlvar` from `my_variables.py`). -/
def Vars : Type := String → String

/-- Render one node: literals verbatim, variables by lookup, filtered
variables through the registered hash filter. -/
def renderNode (vars : Vars) (salt : String) : Node → String
  | .lit s => s
  | .var k => vars k
  | .filt k f => applyFilter f salt (vars k)

/-- Per-node rendered pieces, threading the salt-stream index. -/
def renderPieces (vars : Vars) (salts : Nat → String) : Nat → List Node → List String
  | _, [] => []
  | i, n :: rest => renderNode vars (salts i) n :: renderPieces vars salts (i + 1) rest

/-- Rendered text of a whole template: concatenation of the node pieces. -/
def renderTemplate (t : List Node) (vars : Vars) (salts : Nat → String) : String :=
  String.join (renderPieces vars salts 0 t)

/-- The template root: maps a path `{template_path}/{render_type}/{filename}`
to the parsed template stored there, when present. -/
def TemplateStore : Type := String → Option (List Node)

/-- `template_render(filename, template_path, render_type)` (lines 76-98):
look the template up in the category-scoped root and render it with the
Variable Set; `none` models the Jinja `TemplateNotFound` exception. -/
def template_render (tfs : TemplateStore) (filename template_path render_type : String)
    (vars : Vars) (salts : Nat → String) : Option String :=
  (tfs (template_path ++ "/" ++ render_type ++ "/" ++ filename)).map
    (fun t => renderTemplate t vars salts)

lemma renderPieces_getElem? (vars : Vars) (salts : Nat → String) :
    ∀ (t : List Node) (k i : Nat),
      (renderPieces vars salts k t)[i]? =
        (t[i]?).map (fun n => renderNode vars (salts (k + i)) n) := by
  intro t
  induction t with
  | nil => intro k i; simp [renderPieces]
  | cons n rest ih =>
      intro k i
      cases i with
      | zero => simp [renderPieces]
      | succ j =>
          simp only [renderPieces, List.getElem?_cons_succ, ih (k + 1) j]
          have : k + 1 + j = k + (j + 1) := by omega
          rw [this]

lemma renderNode_salt_irrelevant (vars : Vars) (s s' : String) {n : Node}
    (h : n.isHashed = false) : renderNode vars s n = renderNode vars s' n := by
  cases n with
  | lit a => rfl
  | var k => rfl
  | filt k f => simp [Node.isHashed] at h

lemma renderPieces_salt_irrelevant (vars : Vars) (salts₁ salts₂ : Nat → String)
    (t : List Node) (hnf : ∀ n ∈ t, n.isHashed = false) :
    ∀ k, renderPieces vars salts₁ k t = renderPieces vars salts₂ k t := by
  induction t with
  | nil => intro k; rfl
  | cons n rest ih =>
      intro k
      simp only [renderPieces]
      refine congrArg₂ _ ?_ ?_
      · exact renderNode_salt_irrelevant vars _ _ (hnf n (by simp))
      · exact ih (fun m hm => hnf m (by simp [hm])) (k + 1)

/-- C2: with identical template content and an identical Variable Set, two
runs of `template_render` (differing only in the salts drawn by the hash
filters) produce identical output text whenever no field is produced by a
hash filter, and in general produce piecewise-identical output at every
position not produced by a hash filter. -/
theorem template_render_deterministic (tfs : TemplateStore)
    (filename template_path render_type : String) (t : List Node)
    (vars : Vars) (salts₁ salts₂ : Nat → String)
    (hlook : tfs (template_path ++ "/" ++ render_type ++ "/" ++ filename) = some t) :
    ((∀ n ∈ t, n.isHashed = false) →
      template_render tfs filename template_path render_type vars salts₁ =
        template_render tfs filename template_path render_type vars salts₂) ∧
    template_render tfs filename template_path render_type vars salts₁ =
      some (renderTemplate t vars salts₁) ∧
    (renderPieces vars salts₁ 0 t).length = (renderPieces vars salts₂ 0 t).length ∧
    (∀ (i : Nat) (n : Node), t[i]? = some n → n.isHashed = false →
      (renderPieces vars salts₁ 0 t)[i]? = (renderPieces vars salts₂ 0 t)[i]?) := by
  refine ⟨?_, ?_, ?_, ?_⟩
  · intro hnf
    have hp := renderPieces_salt_irrelevant vars salts₁ salts₂ t hnf 0
    simp [template_render, hlook, renderTemplate, hp]
  · simp [template_render, hlook]
  · have h1 : ∀ (salts : Nat → String) (u : List Node) (k : Nat),
        (renderPieces vars salts k u).length = u.length := by
      intro salts u
      induction u with
      | nil => intro k; rfl
      | cons n rest ih => intro k; simp [renderPieces, ih]
    rw [h1, h1]
  · intro i n hi hnf
    rw [renderPieces_getElem? vars salts₁ t 0 i, renderPieces_getElem? vars salts₂ t 0 i, hi]
    simp only [Nat.zero_add, Option.map_some']
    exact congrArg some (renderNode_salt_irrelevant vars _ _ hnf)

/-- Witness for C2: a concrete store holding `<a>{{ FOO }}</a>` (no hash
filter) rendered under two different salt streams. -/
theorem template_render_deterministic_witness :
    template_render (fun p => if p = "tp/snippets/x_snippet.xml"
        then some [Node.lit "<a>", Node.var "FOO", Node.lit "</a>"] else none)
      "x_snippet.xml" "tp" "snippets" (fun k => if k = "FOO" then "bar" else "")
      (fun _ => "abcdefgh") =
    template_render (fun p => if p = "tp/snippets/x_snippet.xml"
        then some [Node.lit "<a>", Node.var "FOO", Node.lit "</a>"] else none)
      "x_snippet.xml" "tp" "snippets" (fun k => if k = "FOO" then "bar" else "")
      (fun _ => "hgfedcba") :=
  (template_render_deterministic _ "x_snippet.xml" "tp" "snippets"
    [Node.lit "<a>", Node.var "FOO", Node.lit "</a>"] _ _ _ (by simp)).1
    (by intro n hn; fin_cases hn <;> rfl)

/-! ### Filesystem state and the archive writer

The filesystem visible to the script: a set of directories and a map from
file path to content.  `os.mkdir` raises `FileExistsError` on an existing
directory (modelled as an `Except` error); `open(..., 'w')` overwrites.
File lookup returns the most recent write (association-list semantics). -/

structure FS where
  dirs : List String
  files : List (String × String)
deriving DecidableEq

/-- `os.path.isdir`. -/
def FS.isdir (fs : FS) (p : String) : Bool :=
  fs.dirs.contains p

/-- `os.mkdir`: raises (error) when the directory already exists. -/
def FS.mkdir (fs : FS) (p : String) : Except String FS :=
  if fs.isdir p then .error ("FileExistsError: " ++ p)
  else .ok ⟨p :: fs.dirs, fs.files⟩

/-- Read a file's content (most recent write wins). -/
def FS.readFile (fs : FS) (p : String) : Option String :=
  (fs.files.find? (fun q => q.1 == p)).map (fun q => q.2)

/-- `os.path.isfile`. -/
def FS.isfile (fs : FS) (p : String) : Bool :=
  (fs.readFile p).isSome

/-- `open(p, 'w').write(c)` / `shutil.copy` destination write. -/
def FS.writeFile (fs : FS) (p c : String) : FS :=
  ⟨fs.dirs, (p, c) :: fs.files⟩

/-- The guarded creation idiom `if os.path.isdir(p) is False: os.mkdir(p)`
used at source lines 56-57 and 63-64. -/
def guarded_mkdir (fs : FS) (p : String) : Except String FS :=
  if fs.isdir p then .ok fs else fs.mkdir p

/-- `myconfig_newdir(myconfigdir_name, foldertime)` (source lines 46-73):
create `../my_configs`, the timestamped archive folder and the per-mode
`{config_type}/{snippets,full}` subdirectories when absent, returning the
archive folder path.  `config_type` is the script-global set by the
`__main__` loop (line 250), passed explicitly here.  An error carries the
filesystem as mutated so far (a raised `FileExistsError` does not roll back
earlier `mkdir` calls). -/
def myconfig_newdir (myconfigdir_name foldertime config_type : String) (fs : FS) :
    Except (String × FS) (String × FS) :=
  let myconfigpath := "../my_configs"
  match guarded_mkdir fs myconfigpath with
  | .error e => .error (e, fs)
  | .ok fs₁ =>
    let myconfigdir := myconfigpath ++ "/" ++ myconfigdir_name ++ "-" ++ foldertime
    match guarded_mkdir fs₁ myconfigdir with
    | .error e => .error (e, fs₁)
    | .ok fs₂ =>
      if fs₂.isdir (myconfigdir ++ "/" ++ config_type) then .ok (myconfigdir, fs₂)
      else
        match fs₂.mkdir (myconfigdir ++ "/" ++ config_type) with
        | .error e => .error (e, fs₂)
        | .ok fs₃ =>
          match fs₃.mkdir (myconfigdir ++ "/" ++ config_type ++ "/snippets") with
          | .error e => .error (e, fs₃)
          | .ok fs₄ =>
            match fs₄.mkdir (myconfigdir ++ "/" ++ config_type ++ "/full") with
            | .error e => .error (e, fs₄)
            | .ok fs₅ => .ok (myconfigdir, fs₅)

/-- `template_save(snippet_name, myconfigdir, config_type, element,
render_type)` (source lines 101-126): write the rendered element to
`{myconfigdir}/{config_type}/{render_type}/{snippet_name}`, then copy
`my_variables.py` (content `my_variables_source`) to the archive root if no
copy is there yet. -/
def template_save (snippet_name myconfigdir config_type element render_type : String)
    (my_variables_source : String) (fs : FS) : FS :=
  let fs₁ := fs.writeFile
    (myconfigdir ++ "/" ++ config_type ++ "/" ++ render_type ++ "/" ++ snippet_name) element
  if fs₁.isfile (myconfigdir ++ "/my_variables.py") = false then
    fs₁.writeFile (myconfigdir ++ "/my_variables.py") my_variables_source
  else fs₁

lemma guarded_mkdir_ok (fs : FS) (p : String) :
    guarded_mkdir fs p = .ok (if fs.isdir p then fs else ⟨p :: fs.dirs, fs.files⟩) := by
  by_cases h : fs.isdir p <;> simp [guarded_mkdir, FS.mkdir, h]

lemma isdir_cons (fs : FS) (p q : String) :
    (FS.mk (p :: fs.dirs) fs.files).isdir q = (q == p || fs.isdir q) := by
  simp only [FS.isdir, List.contains_cons]

lemma mkdir_isdir (fs : FS) (p : String) {fs' : FS} (h : fs.mkdir p = .ok fs') :
    fs'.isdir p = true ∧ (∀ q, fs.isdir q = true → fs'.isdir q = true) ∧
      fs'.files = fs.files := by
  unfold FS.mkdir at h
  cases hp : fs.isdir p with
  | true => simp [hp] at h
  | false =>
      simp only [hp, Bool.false_eq_true, if_false, Except.ok.injEq] at h
      subst h
      refine ⟨by simp [isdir_cons], fun q hq => ?_, rfl⟩
      rw [isdir_cons, hq, Bool.or_true]

lemma guarded_mkdir_isdir (fs : FS) (p : String) {fs' : FS}
    (h : guarded_mkdir fs p = .ok fs') :
    fs'.isdir p = true ∧ (∀ q, fs.isdir q = true → fs'.isdir q = true) ∧
      fs'.files = fs.files := by
  unfold guarded_mkdir at h
  cases hp : fs.isdir p with
  | true =>
      simp only [hp, if_true, Except.ok.injEq] at h
      subst h
      exact ⟨hp, fun q hq => hq, rfl⟩
  | false =>
      simp only [hp, Bool.false_eq_true, if_false] at h
      exact mkdir_isdir fs p h

/-- After a successful `myconfig_newdir`, the returned path is the archive
folder, all three guard directories exist in the returned state, and no file
contents were touched. -/
lemma myconfig_newdir_ok (name time ctype : String) (fs : FS) {d : String} {fs' : FS}
    (h : myconfig_newdir name time ctype fs = .ok (d, fs')) :
    d = "../my_configs" ++ "/" ++ name ++ "-" ++ time ∧
    fs'.isdir "../my_configs" = true ∧ fs'.isdir d = true ∧
    fs'.isdir (d ++ "/" ++ ctype) = true ∧ fs'.files = fs.files := by
  simp only [myconfig_newdir] at h
  split at h
  · exact absurd h (by simp)
  next fs₁ heq₁ =>
    obtain ⟨h₁a, h₁b, h₁c⟩ := guarded_mkdir_isdir fs _ heq₁
    split at h
    · exact absurd h (by simp)
    next fs₂ heq₂ =>
      obtain ⟨h₂a, h₂b, h₂c⟩ := guarded_mkdir_isdir fs₁ _ heq₂
      split at h
      next hcc =>
        injection h with h
        injection h with hd hfs
        subst hd; subst hfs
        exact ⟨rfl, h₂b _ h₁a, h₂a, hcc, h₂c.trans h₁c⟩
      next hcc =>
        split at h
        · exact absurd h (by simp)
        next fs₃ heq₃ =>
          obtain ⟨h₃a, h₃b, h₃c⟩ := mkdir_isdir fs₂ _ heq₃
          split at h
          · exact absurd h (by simp)
          next fs₄ heq₄ =>
            obtain ⟨h₄a, h₄b, h₄c⟩ := mkdir_isdir fs₃ _ heq₄
            split at h
            · exact absurd h (by simp)
            next fs₅ heq₅ =>
              obtain ⟨h₅a, h₅b, h₅c⟩ := mkdir_isdir fs₄ _ heq₅
              injection h with h
              injection h with hd hfs
              subst hd; subst hfs
              refine ⟨rfl, ?_, ?_, ?_, ?_⟩
              · exact h₅b _ (h₄b _ (h₃b _ (h₂b _ h₁a)))
              · exact h₅b _ (h₄b _ (h₃b _ h₂a))
              · exact h₅b _ (h₄b _ h₃a)
              · exact h₅c.trans (h₄c.trans (h₃c.trans (h₂c.trans h₁c)))

/-- C8: `myconfig_newdir` is idempotent — after a successful call, calling it
again with the same `(base_name, timestamp, mode)` returns the same archive
path without error and leaves the directory tree (and files) unchanged. -/
theorem myconfig_newdir_idempotent (name time ctype : String) (fs : FS) (d : String) (fs' : FS)
    (h : myconfig_newdir name time ctype fs = .ok (d, fs')) :
    myconfig_newdir name time ctype fs' = .ok (d, fs') := by
  obtain ⟨hd, ha, hb, hc, _⟩ := myconfig_newdir_ok name time ctype fs h
  subst hd
  simp only [myconfig_newdir, guarded_mkdir_ok, ha, hb, hc, if_true]

/-- Witness for C8: running `myconfig_newdir` from an empty filesystem and
then again on the resulting state returns the same path and state. -/
theorem myconfig_newdir_idempotent_witness :
    myconfig_newdir "sample" "20180101_000000" "panos"
      ⟨["../my_configs/sample-20180101_000000/panos/full",
        "../my_configs/sample-20180101_000000/panos/snippets",
        "../my_configs/sample-20180101_000000/panos",
        "../my_configs/sample-20180101_000000",
        "../my_configs"], []⟩ =
    .ok ("../my_configs/sample-20180101_000000",
      ⟨["../my_configs/sample-20180101_000000/panos/full",
        "../my_configs/sample-20180101_000000/panos/snippets",
        "../my_configs/sample-20180101_000000/panos",
        "../my_configs/sample-20180101_000000",
        "../my_configs"], []⟩) :=
  myconfig_newdir_idempotent "sample" "20180101_000000" "panos" ⟨[], []⟩ _ _ (by rfl)

lemma readFile_writeFile_self (fs : FS) (p c : String) :
    (fs.writeFile p c).readFile p = some c := by
  simp [FS.writeFile, FS.readFile]

lemma readFile_writeFile_ne (fs : FS) (p q c : String) (h : q ≠ p) :
    (fs.writeFile p c).readFile q = fs.readFile q := by
  unfold FS.writeFile FS.readFile
  rw [List.find?_cons_of_neg]
  simp [h.symm]

/-- C10: the provenance copy of `my_variables.py` happens only as part of
saving a rendered artifact — `template_save` creates the copy when the
archive directory has none, never overwrites an existing copy, and
`myconfig_newdir` (the only other archive-directory operation) creates no
files at all, so an archive directory into which nothing was saved holds no
variables copy even though it exists. -/
theorem template_save_provenance
    (snippet_name myconfigdir config_type element render_type mvsrc : String) (fs : FS)
    (hne : myconfigdir ++ "/" ++ config_type ++ "/" ++ render_type ++ "/" ++ snippet_name ≠
      myconfigdir ++ "/my_variables.py") :
    ((fs.readFile (myconfigdir ++ "/my_variables.py") = none →
        (template_save snippet_name myconfigdir config_type element render_type mvsrc
          fs).readFile (myconfigdir ++ "/my_variables.py") = some mvsrc) ∧
     (∀ v, fs.readFile (myconfigdir ++ "/my_variables.py") = some v →
        (template_save snippet_name myconfigdir config_type element render_type mvsrc
          fs).readFile (myconfigdir ++ "/my_variables.py") = some v)) ∧
    (∀ (n t c : String) (fs₀ : FS) (d : String) (fs₁ : FS),
        myconfig_newdir n t c fs₀ = .ok (d, fs₁) → fs₁.files = fs₀.files) := by
  have hro : ∀ c,
      (fs.writeFile (myconfigdir ++ "/" ++ config_type ++ "/" ++ render_type ++ "/"
          ++ snippet_name) c).readFile (myconfigdir ++ "/my_variables.py") =
        fs.readFile (myconfigdir ++ "/my_variables.py") :=
    fun c => readFile_writeFile_ne fs _ _ c (Ne.symm hne)
  refine ⟨⟨?_, ?_⟩, ?_⟩
  · intro habs
    unfold template_save
    simp only [FS.isfile, hro, habs, Option.isSome_none, if_pos]
    exact readFile_writeFile_self _ _ _
  · intro v hv
    unfold template_save
    simp only [FS.isfile, hro, hv, Option.isSome_some]
    simp only [Bool.true_eq_false, if_false]
    rw [hro]
    exact hv
  · intro n t c fs₀ d fs₁ h
    exact (myconfig_newdir_ok n t c fs₀ h).2.2.2.2

/-- Witness for C10: a save into an archive root without a variables copy
creates it; a save when a copy is present leaves the old copy; a fresh
`myconfig_newdir` run creates no files. -/
theorem template_save_provenance_witness :
    (template_save "a.xml" "d" "panos" "<x/>" "snippets" "VARS"
        ⟨[], []⟩).readFile ("d" ++ "/my_variables.py") = some "VARS" ∧
    (template_save "a.xml" "d" "panos" "<x/>" "snippets" "VARS"
        ⟨[], [("d/my_variables.py", "OLD")]⟩).readFile ("d" ++ "/my_variables.py") =
      some "OLD" ∧
    FS.files ⟨["../my_configs/s-t/panos/full", "../my_configs/s-t/panos/snippets",
      "../my_configs/s-t/panos", "../my_configs/s-t", "../my_configs"], []⟩ =
      FS.files ⟨[], []⟩ :=
  ⟨(template_save_provenance "a.xml" "d" "panos" "<x/>" "snippets" "VARS"
      ⟨[], []⟩ (by decide)).1.1 (by rfl),
   (template_save_provenance "a.xml" "d" "panos" "<x/>" "snippets" "VARS"
      ⟨[], [("d/my_variables.py", "OLD")]⟩ (by decide)).1.2 "OLD" (by rfl),
   (template_save_provenance "a.xml" "d" "panos" "<x/>" "snippets" "VARS"
      ⟨[], []⟩ (by decide)).2 "s" "t" "panos" ⟨[], []⟩ "../my_configs/s-t"
      ⟨["../my_configs/s-t/panos/full", "../my_configs/s-t/panos/snippets",
        "../my_configs/s-t/panos", "../my_configs/s-t", "../my_configs"], []⟩ (by rfl)⟩

/-! ### Load-order resolution and the per-mode run (`replace_variables`)

Source lines 160-217.  The load order is obtained by
`__import__(f'{config_type}_snippet_load_order')` (line 175) — which raises
`ModuleNotFoundError` when no such module is importable — followed by a
dispatch on `config_type` (lines 177-183) that reads the module's
`panos_gold_template_dict` / `panorama_gold_template_dict` attribute for the
two supported modes and otherwise prints `'Oops. Not a supported config
type'` and calls `sys.exit()` (with no argument, i.e. process exit status 0).
An uncaught exception terminates the Python process with status 1. -/

/-- A `*_snippet_load_order` module: its two possible gold-template dict
attributes (absent attribute modelled as `none`, an access raising
`AttributeError`). -/
structure LoadOrderModule where
  panos_gold_template_dict : Option (List (String × String))
  panorama_gold_template_dict : Option (List (String × String))
deriving DecidableEq

/-- The importable modules visible on `sys.path`, by module name. -/
def Modules : Type := String → Option LoadOrderModule

/-- The ways an invocation of `replace_variables` can terminate the run. -/
inductive Abort
  | moduleNotFound          -- uncaught ModuleNotFoundError from __import__ (line 175)
  | attributeError          -- uncaught AttributeError reading the dict attribute
  | unsupportedConfigType   -- the else branch: print diagnostic, sys.exit() (lines 181-183)
  | templateNotFound        -- uncaught jinja TemplateNotFound for the full template
  | fileExists (e : String) -- uncaught FileExistsError from os.mkdir
deriving DecidableEq

/-- Process exit status of each abort: `sys.exit()` with no argument exits
with status 0; an uncaught exception exits with status 1. -/
def Abort.exitCode : Abort → Nat
  | .unsupportedConfigType => 0
  | _ => 1

/-- Whether the abort prints the `'Oops. Not a supported config type'`
diagnostic (line 182); uncaught exceptions print a traceback instead. -/
def Abort.printsUnsupportedDiagnostic : Abort → Bool
  | .unsupportedConfigType => true
  | _ => false

/-- Lines 174-183: import `{config_type}_snippet_load_order`, then pick the
mode's gold-template dict, or print the diagnostic and exit for any other
config type. -/
def resolve_load_order (modules : Modules) (config_type : String) :
    Except Abort (List (String × String)) :=
  match modules (config_type ++ "_snippet_load_order") with
  | none => .error .moduleNotFound
  | some load_order =>
    if config_type = "panos" then
      match load_order.panos_gold_template_dict with
      | none => .error .attributeError
      | some d => .ok d
    else if config_type = "panorama" then
      match load_order.panorama_gold_template_dict with
      | none => .error .attributeError
      | some d => .ok d
    else .error .unsupportedConfigType

/-- Observable events of a run: console prints and artifact writes. -/
inductive Ev
  | printed (s : String)
  | saved (path content : String)
deriving DecidableEq

/-- The artifact writes among a run's events, in order. -/
def savedEvents : List Ev → List (String × String)
  | [] => []
  | .saved p c :: rest => (p, c) :: savedEvents rest
  | .printed _ :: rest => savedEvents rest

/-- The snippet loop of `replace_variables` (lines 188-204): for each load
order entry in order, skip it with a console warning when its template file
does not exist, else render it and save it via `template_save`. -/
def snippet_loop (tfs : TemplateStore) (vars : Vars) (salts : Nat → String)
    (template_path myconfig_path config_type mvsrc : String) :
    List (String × String) → FS → FS × List Ev
  | [], fs => (fs, [])
  | (xml_xpath, base) :: rest, fs =>
    let render_type := "snippets"
    let snippet_name := base ++ ".xml"
    let snippet_path := template_path ++ "/" ++ render_type ++ "/" ++ snippet_name
    match tfs snippet_path with
    | none =>
      let r := snippet_loop tfs vars salts template_path myconfig_path config_type mvsrc rest fs
      (r.1, .printed ("working with " ++ xml_xpath) :: .printed snippet_path ::
        .printed "this snippet does not actually exist!" :: r.2)
    | some t =>
      let element := renderTemplate t vars salts
      let fs₁ := template_save snippet_name myconfig_path config_type element render_type
        mvsrc fs
      let r := snippet_loop tfs vars salts template_path myconfig_path config_type mvsrc rest fs₁
      (r.1, .printed ("working with " ++ xml_xpath) ::
        .saved (myconfig_path ++ "/" ++ config_type ++ "/" ++ render_type ++ "/" ++ snippet_name)
          element :: r.2)

/-- `replace_variables(config_type, archivetime)` (lines 160-217): resolve
the load order, create the archive directories, render and save each snippet
in load order, then render and save the full configuration template. -/
def replace_variables (modules : Modules) (tfs : TemplateStore) (vars : Vars)
    (salts : Nat → String) (mvsrc : String) (config_type archivetime : String) (fs : FS) :
    Except Abort Unit × FS × List Ev :=
  let template_path := "../templates/" ++ config_type
  match resolve_load_order modules config_type with
  | .error a => (.error a, fs, [])
  | .ok snippet_dict =>
    match myconfig_newdir (vars "MYCONFIG_DIR") archivetime config_type fs with
    | .error e => (.error (.fileExists e.1), e.2, [])
    | .ok (myconfig_path, fs₁) =>
      let r := snippet_loop tfs vars salts template_path myconfig_path config_type mvsrc
        snippet_dict fs₁
      match template_render tfs "iron_skillet_day1_template.xml" template_path "full"
          vars salts with
      | none => (.error .templateNotFound, r.1, r.2)
      | some element =>
        let fs₃ := template_save "iron_skillet_day1_template.xml" myconfig_path config_type
          element "full" mvsrc r.1
        (.ok (), fs₃,
          r.2 ++ [.saved (myconfig_path ++ "/" ++ config_type ++ "/" ++ "full" ++ "/"
            ++ "iron_skillet_day1_template.xml") element])

/-- Modelled from the spec: the repository's template tree (not under
`src/`) supplies load-order modules only for the two supported modes — "a
per-mode load-order definition providing the ordered entry collection"
consumed from `<root>/templates/<mode>`, with a non-empty entry collection
per supported mode ("For all supported modes, `resolve(mode)` returns a
non-empty ordered entry collection"). -/
def repoModules : Modules := fun name =>
  if name = "panos_snippet_load_order" then
    some ⟨some [("/config/mgt-config/users", "device_mgt_users")], none⟩
  else if name = "panorama_snippet_load_order" then
    some ⟨none, some [("/config/panorama/vsys", "panorama_vsys")]⟩
  else none

/-- C3: the snippets are rendered and saved exactly in load order — the
sequence of artifact writes is the load-order collection filtered to the
entries whose template file exists, each rendered, in the same order. -/
theorem snippet_loop_saves_in_load_order (tfs : TemplateStore) (vars : Vars)
    (salts : Nat → String) (tp mp ct mvsrc : String) :
    ∀ (entries : List (String × String)) (fs : FS),
      savedEvents (snippet_loop tfs vars salts tp mp ct mvsrc entries fs).2 =
        entries.filterMap (fun e =>
          (tfs (tp ++ "/" ++ "snippets" ++ "/" ++ (e.2 ++ ".xml"))).map (fun t =>
            (mp ++ "/" ++ ct ++ "/" ++ "snippets" ++ "/" ++ (e.2 ++ ".xml"),
             renderTemplate t vars salts))) := by
  intro entries
  induction entries with
  | nil => intro fs; rfl
  | cons e rest ih =>
      intro fs
      obtain ⟨xp, base⟩ := e
      cases h : tfs (tp ++ "/" ++ "snippets" ++ "/" ++ (base ++ ".xml")) with
      | none => simp [snippet_loop, h, savedEvents, ih, List.filterMap_cons]
      | some t => simp [snippet_loop, h, savedEvents, ih, List.filterMap_cons]

/-- C7: a load-order entry whose snippet template file is absent is skipped
after a console warning — the filesystem evolves exactly as if the loop had
started at the next entry, nothing is saved for the missing entry, and the
loop returns normally (non-fatal). -/
theorem snippet_loop_skips_missing_snippet (tfs : TemplateStore) (vars : Vars)
    (salts : Nat → String) (tp mp ct mvsrc xp base : String)
    (rest : List (String × String)) (fs : FS)
    (habs : tfs (tp ++ "/" ++ "snippets" ++ "/" ++ (base ++ ".xml")) = none) :
    (snippet_loop tfs vars salts tp mp ct mvsrc ((xp, base) :: rest) fs).1 =
      (snippet_loop tfs vars salts tp mp ct mvsrc rest fs).1 ∧
    savedEvents (snippet_loop tfs vars salts tp mp ct mvsrc ((xp, base) :: rest) fs).2 =
      savedEvents (snippet_loop tfs vars salts tp mp ct mvsrc rest fs).2 ∧
    Ev.printed "this snippet does not actually exist!" ∈
      (snippet_loop tfs vars salts tp mp ct mvsrc ((xp, base) :: rest) fs).2 := by
  refine ⟨?_, ?_, ?_⟩ <;> simp [snippet_loop, habs, savedEvents]

/-- Witness for C7: a one-entry load order whose snippet file is absent from
an empty template root — the loop skips it, saves nothing, prints the
warning. -/
theorem snippet_loop_skips_missing_snippet_witness :
    (snippet_loop (fun _ => none) (fun _ => "") (fun _ => "") "../templates/panos" "d"
        "panos" "V" [("/config/x", "x_snippet")] ⟨[], []⟩).1 =
      (snippet_loop (fun _ => none) (fun _ => "") (fun _ => "") "../templates/panos" "d"
        "panos" "V" [] ⟨[], []⟩).1 ∧
    savedEvents (snippet_loop (fun _ => none) (fun _ => "") (fun _ => "")
        "../templates/panos" "d" "panos" "V" [("/config/x", "x_snippet")] ⟨[], []⟩).2 =
      savedEvents (snippet_loop (fun _ => none) (fun _ => "") (fun _ => "")
        "../templates/panos" "d" "panos" "V" [] ⟨[], []⟩).2 ∧
    Ev.printed "this snippet does not actually exist!" ∈
      (snippet_loop (fun _ => none) (fun _ => "") (fun _ => "") "../templates/panos" "d"
        "panos" "V" [("/config/x", "x_snippet")] ⟨[], []⟩).2 :=
  snippet_loop_skips_missing_snippet (fun _ => none) (fun _ => "") (fun _ => "")
    "../templates/panos" "d" "panos" "V" "/config/x" "x_snippet" [] ⟨[], []⟩ rfl

/-- Counterexample to C4 as stated: for mode `"vpn"` under the repository's
template layout there is no `vpn_snippet_load_order` module, so line 175's
`__import__` raises `ModuleNotFoundError` — the run aborts *without* the
`'Oops. Not a supported config type'` diagnostic ever being printed. -/
theorem resolve_load_order_vpn_counterexample :
    resolve_load_order repoModules "vpn" = .error .moduleNotFound ∧
    Abort.moduleNotFound ≠ Abort.unsupportedConfigType ∧
    Abort.printsUnsupportedDiagnostic .moduleNotFound = false :=
  ⟨rfl, by decide, rfl⟩

/-- C4 (amended): for every mode outside {panos, panorama}, load-order
resolution fails fatally — with the printed `'not a supported config type'`
diagnostic and `sys.exit` when a `{mode}_snippet_load_order` module is
importable, and with an uncaught `ModuleNotFoundError` (no such diagnostic)
when it is not; either way `replace_variables` aborts that run. -/
theorem resolve_load_order_unsupported_mode (modules : Modules) (mode : String)
    (h1 : mode ≠ "panos") (h2 : mode ≠ "panorama") :
    (modules (mode ++ "_snippet_load_order") = none →
       resolve_load_order modules mode = .error .moduleNotFound ∧
       Abort.printsUnsupportedDiagnostic .moduleNotFound = false) ∧
    (∀ m, modules (mode ++ "_snippet_load_order") = some m →
       resolve_load_order modules mode = .error .unsupportedConfigType ∧
       Abort.printsUnsupportedDiagnostic .unsupportedConfigType = true) ∧
    (∀ (tfs : TemplateStore) (vars : Vars) (salts : Nat → String) (mvsrc time : String)
        (fs : FS), ∃ a : Abort,
       replace_variables modules tfs vars salts mvsrc mode time fs = (.error a, fs, [])) := by
  refine ⟨?_, ?_, ?_⟩
  · intro hn
    exact ⟨by simp [resolve_load_order, hn], rfl⟩
  · intro m hm
    exact ⟨by simp [resolve_load_order, hm, h1, h2], rfl⟩
  · intro tfs vars salts mvsrc time fs
    cases hl : modules (mode ++ "_snippet_load_order") with
    | none =>
        exact ⟨.moduleNotFound, by simp [replace_variables, resolve_load_order, hl]⟩
    | some m =>
        exact ⟨.unsupportedConfigType,
          by simp [replace_variables, resolve_load_order, hl, h1, h2]⟩

/-- Witness for C4 (amended) at mode `"vpn"` with the repository's module
layout (no importable vpn module). -/
theorem resolve_load_order_unsupported_mode_witness :
    resolve_load_order repoModules "vpn" = .error .moduleNotFound ∧
    Abort.printsUnsupportedDiagnostic .moduleNotFound = false :=
  (resolve_load_order_unsupported_mode repoModules "vpn" (by decide) (by decide)).1 rfl

/-- Counterexample to C5 as stated: on the abort path that prints the
`'Oops. Not a supported config type'` diagnostic (lines 181-183), the run
terminates via `sys.exit()` with no argument, whose process exit status is
0 — not non-zero. -/
theorem unsupported_mode_exit_code_counterexample :
    resolve_load_order (fun _ => some ⟨some [], some []⟩) "vpn" =
      .error .unsupportedConfigType ∧
    Abort.printsUnsupportedDiagnostic .unsupportedConfigType = true ∧
    Abort.exitCode .unsupportedConfigType = 0 :=
  ⟨rfl, rfl, rfl⟩

/-- C5 (amended): when the run aborts on an unsupported mode through the
printed diagnostic, the process exit status is 0 (`sys.exit()` with no
argument); a non-zero exit status occurs only on the uncaught
`ModuleNotFoundError` abort, which does not print that diagnostic. -/
theorem unsupported_mode_abort_exit_code (modules : Modules) (mode : String)
    (m : LoadOrderModule) (h1 : mode ≠ "panos") (h2 : mode ≠ "panorama")
    (hm : modules (mode ++ "_snippet_load_order") = some m) :
    resolve_load_order modules mode = .error .unsupportedConfigType ∧
    Abort.printsUnsupportedDiagnostic .unsupportedConfigType = true ∧
    Abort.exitCode .unsupportedConfigType = 0 ∧
    Abort.exitCode .moduleNotFound = 1 ∧
    Abort.printsUnsupportedDiagnostic .moduleNotFound = false := by
  exact ⟨by simp [resolve_load_order, hm, h1, h2], rfl, rfl, rfl, rfl⟩

/-- Witness for C5 (amended): a concrete module map that does expose a
`vpn_snippet_load_order` module. -/
theorem unsupported_mode_abort_exit_code_witness :
    resolve_load_order (fun _ => some ⟨some [], some []⟩) "vpn" =
      .error .unsupportedConfigType ∧
    Abort.printsUnsupportedDiagnostic .unsupportedConfigType = true ∧
    Abort.exitCode .unsupportedConfigType = 0 ∧
    Abort.exitCode .moduleNotFound = 1 ∧
    Abort.printsUnsupportedDiagnostic .moduleNotFound = false :=
  unsupported_mode_abort_exit_code (fun _ => some ⟨some [], some []⟩) "vpn"
    ⟨some [], some []⟩ (by decide) (by decide) rfl

/-- C6: for every unsupported mode, `replace_variables` aborts before
`myconfig_newdir` runs — the filesystem (hence the `my_configs` root, the
timestamped archive folder and every mode subdirectory) is exactly as it
was, and nothing was rendered or saved. -/
theorem replace_variables_unsupported_mode_no_dirs (modules : Modules)
    (tfs : TemplateStore) (vars : Vars) (salts : Nat → String) (mvsrc : String)
    (mode time : String) (fs : FS)
    (h1 : mode ≠ "panos") (h2 : mode ≠ "panorama") :
    replace_variables modules tfs vars salts mvsrc mode time fs =
      (.error (match modules (mode ++ "_snippet_load_order") with
        | none => Abort.moduleNotFound
        | some _ => Abort.unsupportedConfigType), fs, []) := by
  cases hl : modules (mode ++ "_snippet_load_order") with
  | none => simp [replace_variables, resolve_load_order, hl]
  | some m => simp [replace_variables, resolve_load_order, hl, h1, h2]

/-- Witness for C6 at mode `"vpn"` on a filesystem that starts empty: it
stays empty. -/
theorem replace_variables_unsupported_mode_no_dirs_witness :
    replace_variables repoModules (fun _ => none) (fun _ => "") (fun _ => "") "V"
      "vpn" "20180101_000000" ⟨[], []⟩ =
      (.error Abort.moduleNotFound, ⟨[], []⟩, []) :=
  replace_variables_unsupported_mode_no_dirs repoModules (fun _ => none) (fun _ => "")
    (fun _ => "") "V" "vpn" "20180101_000000" ⟨[], []⟩ (by decide) (by decide)

/-! ### The `__main__` block (source lines 220-251)

Interactive input is explicit: the username, and the sequence of password
pair entries the operator would type at the two `getpass` prompts.  The
password loop (lines 237-247) re-prompts until the two entries of a pair
match exactly; `password_loop` returns the accepted password and the number
of pair attempts consumed, or `none` when the supplied entries run out with
no match (the real loop would still be blocked re-prompting — no retry
bound exists). -/

/-- Update one key of the Variable Set (the `xmlvar[...] = ...`
assignments of lines 234 and 244). -/
def Vars.update (vars : Vars) (k v : String) : Vars :=
  fun q => if q = k then v else vars q

/-- The password-confirmation loop (lines 240-247). -/
def password_loop : List (String × String) → Option (String × Nat)
  | [] => none
  | (password1, password2) :: rest =>
    if password1 = password2 then some (password1, 1)
    else (password_loop rest).map (fun r => (r.1, r.2 + 1))

/-- The `__main__` run: collect the username, run the password loop, then
`replace_variables` for `'panos'` and `'panorama'` in that order (line 250).
`none` means the run is still blocked at the password prompts; an abort in
the first mode ends the run there. -/
def main_run (modules : Modules) (tfs : TemplateStore) (xmlvar : Vars)
    (salts : Nat → String) (mvsrc archive_time username : String)
    (password_attempts : List (String × String)) (fs : FS) :
    Option (Vars × (Except Abort Unit × FS × List Ev)) :=
  let vars₁ := Vars.update xmlvar "ADMINISTRATOR_USERNAME" username
  match password_loop password_attempts with
  | none => none
  | some r =>
    let vars₂ := Vars.update vars₁ "ADMINISTRATOR_PASSWORD" r.1
    let r₁ := replace_variables modules tfs vars₂ salts mvsrc "panos" archive_time fs
    match r₁.1 with
    | .error a => some (vars₂, (.error a, r₁.2.1, r₁.2.2))
    | .ok _ =>
      let r₂ := replace_variables modules tfs vars₂ salts mvsrc "panorama" archive_time r₁.2.1
      some (vars₂, (r₂.1, r₂.2.1, r₁.2.2 ++ r₂.2.2))

/-- C9: the credential loop re-prompts after every unequal pair with no
retry bound (any all-mismatch input sequence leaves it unterminated),
terminates exactly at the first equal pair, sets `ADMINISTRATOR_PASSWORD`
to that entered value, and no rendering occurs before the loop has
terminated. -/
theorem password_loop_retry_until_match :
    (∀ attempts : List (String × String), (∀ p ∈ attempts, p.1 ≠ p.2) →
       password_loop attempts = none) ∧
    (∀ (p : String × String) (rest : List (String × String)), p.1 = p.2 →
       password_loop (p :: rest) = some (p.1, 1)) ∧
    (∀ (p : String × String) (rest : List (String × String)), p.1 ≠ p.2 →
       password_loop (p :: rest) = (password_loop rest).map (fun r => (r.1, r.2 + 1))) ∧
    (∀ (modules : Modules) (tfs : TemplateStore) (xmlvar : Vars) (salts : Nat → String)
       (mvsrc time user : String) (attempts : List (String × String)) (fs : FS),
       password_loop attempts = none →
       main_run modules tfs xmlvar salts mvsrc time user attempts fs = none) ∧
    (∀ (modules : Modules) (tfs : TemplateStore) (xmlvar : Vars) (salts : Nat → String)
       (mvsrc time user : String) (attempts : List (String × String)) (fs : FS)
       (pw : String) (k : Nat) (result : Vars × (Except Abort Unit × FS × List Ev)),
       password_loop attempts = some (pw, k) →
       main_run modules tfs xmlvar salts mvsrc time user attempts fs = some result →
       result.1 "ADMINISTRATOR_PASSWORD" = pw) := by
  refine ⟨?_, ?_, ?_, ?_, ?_⟩
  · intro attempts
    induction attempts with
    | nil => intro _; rfl
    | cons p rest ih =>
        intro h
        obtain ⟨a, b⟩ := p
        have hab : a ≠ b := h (a, b) (by simp)
        simp only [password_loop, if_neg hab, ih (fun q hq => h q (by simp [hq])),
          Option.map_none']
  · intro p rest h
    obtain ⟨a, b⟩ := p
    simp only [password_loop, if_pos h]
  · intro p rest h
    obtain ⟨a, b⟩ := p
    simp only [password_loop, if_neg h]
  · intro modules tfs xmlvar salts mvsrc time user attempts fs h
    unfold main_run
    rw [h]
  · intro modules tfs xmlvar salts mvsrc time user attempts fs pw k result h1 h2
    unfold main_run at h2
    rw [h1] at h2
    simp only at h2
    split at h2 <;>
    · injection h2 with h2
      subst h2
      simp [Vars.update]

/-- Witness for C9: a mismatched pair leaves the loop (and the whole run)
unterminated with nothing rendered; a matching pair terminates it at once
with that password. -/
theorem password_loop_retry_until_match_witness :
    password_loop [("a", "b")] = none ∧
    password_loop [("s", "s"), ("x", "y")] = some ("s", 1) ∧
    main_run repoModules (fun _ => none) (fun _ => "") (fun _ => "") "V" "t" "admin"
      [("a", "b")] ⟨[], []⟩ = none :=
  ⟨password_loop_retry_until_match.1 [("a", "b")] (by decide),
   password_loop_retry_until_match.2.1 ("s", "s") [("x", "y")] rfl,
   password_loop_retry_until_match.2.2.2.1 repoModules (fun _ => none) (fun _ => "")
     (fun _ => "") "V" "t" "admin" [("a", "b")] ⟨[], []⟩ (by rfl)⟩

end IronSkillet
